import Mathlib

/-!
Verification of the library-books CRUD service.

The router (`routes` file of the repository) is embedded directly; the
`Book` model, the database gateway and the authentication middleware are
required by the router but their files are not part of the sources, so
they are modelled from the specification (each such definition says so in
its doc comment).

Machine model: a request is processed by the pipeline
guard → connectivity check → handler, over a store that is a list of
records in insertion order plus a fresh-identity counter.  Failures of
the external store are injected through the environment: `conn` is the
outcome of `db.checkConnection()` and `modelError` makes every invoked
model operation throw with the given message.
-/

/-- Fields of a book as carried by a JSON body or a stored document:
`title`, `authorId`, `publishedDate`, `pages`, every one optional at the
representation level (presence is part of the value). -/
structure BookFields where
  title : Option String
  authorId : Option String
  publishedDate : Option String
  pages : Option Int
deriving DecidableEq, Repr

/-- A stored book document: the identity `_id` assigned by the store plus
the fields persisted verbatim. -/
structure StoredBook where
  _id : Nat
  fields : BookFields
deriving DecidableEq, Repr

/-- The book collection: documents in insertion order and the next fresh
identity. -/
structure Store where
  nextId : Nat
  books : List StoredBook
deriving DecidableEq, Repr

/-- The empty store. -/
def store0 : Store := ⟨0, []⟩

/-- JavaScript truthiness of the `title` field as tested by
`!req.body.title`: falsy when absent or the empty string. -/
def titleFalsy : Option String → Bool
  | none => true
  | some s => s = ""

/-- Modelled from the spec: result object of `Book.create`
(`{insertedId}`), the model file not being among the sources. -/
structure InsertResult where
  insertedId : Nat
deriving DecidableEq, Repr

/-- Modelled from the spec: result object of `Book.update`
(`{matchedCount}`), the model file not being among the sources. -/
structure UpdateResult where
  matchedCount : Nat
deriving DecidableEq, Repr

/-- Modelled from the spec: result object of `Book.delete`
(`{deletedCount}`), the model file not being among the sources. -/
structure DeleteResult where
  deletedCount : Nat
deriving DecidableEq, Repr

/-- Modelled from the spec: `findAll()` returns the ordered-by-insertion
sequence of all stored records (the model file is not among the
sources). -/
def Book.findAll (s : Store) : List StoredBook := s.books

/-- Modelled from the spec: `findById(id)` returns the book with matching
identity or a "not found" signal (the model file is not among the
sources). -/
def Book.findById (s : Store) (i : Nat) : Option StoredBook :=
  s.books.find? (fun b => b._id = i)

/-- Modelled from the spec: `create(fields)` assigns a new unique
identity, persists the record verbatim and returns the new identity (the
model file is not among the sources). -/
def Book.create (s : Store) (f : BookFields) : InsertResult × Store :=
  (⟨s.nextId⟩, ⟨s.nextId + 1, s.books ++ [⟨s.nextId, f⟩]⟩)

/-- A given (present) payload field replaces the stored one; an absent
payload field leaves the stored one unchanged. -/
def setField {α : Type} (old new : Option α) : Option α :=
  match new with
  | some v => some v
  | none => old

/-- Replacement of the given (present) fields of a payload onto an
existing record, the absent ones left unchanged. -/
def mergeFields (old new : BookFields) : BookFields :=
  ⟨setField old.title new.title, setField old.authorId new.authorId,
   setField old.publishedDate new.publishedDate, setField old.pages new.pages⟩

/-- Modelled from the spec: `update(id, fields)` replaces all given
fields on the record with the given identity, reports whether a record
was matched, and is a no-op on an absent identity (the model file is not
among the sources). -/
def Book.update (s : Store) (i : Nat) (f : BookFields) : UpdateResult × Store :=
  if s.books.any (fun b => b._id = i) then
    (⟨1⟩, ⟨s.nextId,
      s.books.map (fun b => if b._id = i then ⟨i, mergeFields b.fields f⟩ else b)⟩)
  else
    (⟨0⟩, s)

/-- Modelled from the spec: `delete(id)` removes the record with the
given identity and reports whether one was matched (the model file is
not among the sources). -/
def Book.delete (s : Store) (i : Nat) : DeleteResult × Store :=
  (⟨if s.books.any (fun b => b._id = i) then 1 else 0⟩,
   ⟨s.nextId, s.books.filter (fun b => b._id ≠ i)⟩)

/-- Environment of one request: the session principal (modelled from the
spec, the authentication middleware file not being among the sources),
the outcome of `db.checkConnection()` (`none` = healthy, `some msg` =
throws `msg`; the database file is not among the sources) and the
injected model failure (`some msg` makes every invoked `Book` operation
throw `msg`). -/
structure Env where
  principal : Option String
  conn : Option String
  modelError : Option String
deriving DecidableEq, Repr

/-- Payload of a JSON response body. -/
inductive RData where
  | books (bs : List StoredBook)
  | book (b : StoredBook)
  | null
deriving DecidableEq, Repr

/-- A JSON response: HTTP status plus the envelope fields actually used
by the router (`success`, `count`, `data`, `message`, `details`,
`error`). -/
structure Response where
  status : Nat
  success : Bool
  count : Option Nat
  data : Option RData
  message : Option String
  details : Option String
  error : Option String
deriving DecidableEq, Repr

/-- Error envelope with only a message, as produced by the handlers. -/
def errResponse (status : Nat) (msg : String) : Response :=
  ⟨status, false, none, none, some msg, none, none⟩

/-- The JS value `newBook` put in the `data` field: the record when
found, JSON `null` otherwise. -/
def dataOfOpt : Option StoredBook → RData
  | some b => RData.book b
  | none => RData.null

/-- One of the five routed operations with its inputs. -/
inductive Request where
  | list
  | getById (i : Nat)
  | create (body : BookFields)
  | update (i : Nat) (body : BookFields)
  | delete (i : Nat)
deriving DecidableEq, Repr

/-- Handler of `GET /books` (router source, lines 176-196). -/
def getAllBooks (env : Env) (s : Store) : Response × Store :=
  match env.modelError with
  | some msg => (⟨500, false, none, none, some msg, some "Failed to fetch books", none⟩, s)
  | none =>
    let books := Book.findAll s
    (⟨200, true, some books.length, some (RData.books books), none, none, none⟩, s)

/-- Handler of `GET /books/:id` (router source, lines 199-222). -/
def getBook (env : Env) (s : Store) (i : Nat) : Response × Store :=
  match env.modelError with
  | some msg => (errResponse 500 msg, s)
  | none =>
    match Book.findById s i with
    | none => (errResponse 404 "Book not found", s)
    | some b => (⟨200, true, none, some (RData.book b), none, none, none⟩, s)

/-- Handler of `POST /books` (router source, lines 225-251): rejects a
falsy `title` with 400 before any model call, otherwise creates the
record and re-reads it by the returned identity. -/
def postBook (env : Env) (s : Store) (body : BookFields) : Response × Store :=
  if titleFalsy body.title then
    (errResponse 400 "Book title is required", s)
  else
    match env.modelError with
    | some msg => (errResponse 500 msg, s)
    | none =>
      let result := Book.create s body
      let newBook := Book.findById result.2 result.1.insertedId
      (⟨201, true, none, some (dataOfOpt newBook), some "Book created successfully", none, none⟩,
       result.2)

/-- Handler of `PUT /books/:id` (router source, lines 254-278): no body
validation; 404 when `matchedCount` is falsy, else 200 with the record
re-read from the store. -/
def putBook (env : Env) (s : Store) (i : Nat) (body : BookFields) : Response × Store :=
  match env.modelError with
  | some msg => (errResponse 500 msg, s)
  | none =>
    let result := Book.update s i body
    if result.1.matchedCount = 0 then
      (errResponse 404 "Book not found", result.2)
    else
      let updatedBook := Book.findById result.2 i
      (⟨200, true, none, some (dataOfOpt updatedBook), some "Book updated successfully", none, none⟩,
       result.2)

/-- Handler of `DELETE /books/:id` (router source, lines 281-303): 404
when `deletedCount` is falsy, else 200 with a confirmation message. -/
def deleteBook (env : Env) (s : Store) (i : Nat) : Response × Store :=
  match env.modelError with
  | some msg => (errResponse 500 msg, s)
  | none =>
    let result := Book.delete s i
    if result.1.deletedCount = 0 then
      (errResponse 404 "Book not found", result.2)
    else
      (⟨200, true, none, none, some "Book deleted successfully", none, none⟩, result.2)

/-- Dispatch of a request to its handler. -/
def dispatch (env : Env) (s : Store) : Request → Response × Store
  | Request.list => getAllBooks env s
  | Request.getById i => getBook env s i
  | Request.create body => postBook env s body
  | Request.update i body => putBook env s i body
  | Request.delete i => deleteBook env s i

/-- Outcome of the whole pipeline: either the guard rejected the request
(store untouched), or a response was produced over a possibly updated
store. -/
inductive Outcome where
  | unauthorized (s : Store)
  | ok (r : Response) (s : Store)
deriving DecidableEq, Repr

/-- Connectivity middleware (router source, lines 161-173) followed by
the handler: a `checkConnection()` failure is reported as 500 with the
raw message and the handler is never invoked. -/
def afterAuth (env : Env) (s : Store) (req : Request) : Outcome :=
  match env.conn with
  | some msg =>
    Outcome.ok ⟨500, false, none, none, some "Database connection failed", none, some msg⟩ s
  | none =>
    let rs := dispatch env s req
    Outcome.ok rs.1 rs.2

/-- The full pipeline: the authentication guard (modelled from the spec,
the middleware file not being among the sources: absent principal
short-circuits with an unauthorized outcome, present principal passes
the request through unchanged), then connectivity check and handler. -/
def processRequest (env : Env) (s : Store) (req : Request) : Outcome :=
  match env.principal with
  | none => Outcome.unauthorized s
  | some _ => afterAuth env s req

/-- Well-formed store: every stored identity is below the fresh
counter (identities are unique because the store assigns them). -/
def Store.WF (s : Store) : Prop :=
  ∀ b ∈ s.books, b._id < s.nextId

/-- Title invariant of a store: every stored record has a truthy
(present and non-empty) title. -/
def Store.TitleInv (s : Store) : Prop :=
  ∀ b ∈ s.books, titleFalsy b.fields.title = false

lemma find?_fresh_none (s : Store) (hWF : Store.WF s) :
    s.books.find? (fun b => b._id = s.nextId) = none := by
  rw [List.find?_eq_none]
  intro b hb
  simp only [decide_eq_true_eq]
  exact Nat.ne_of_lt (hWF b hb)

lemma findById_create (s : Store) (hWF : Store.WF s) (f : BookFields) :
    Book.findById (Book.create s f).2 (Book.create s f).1.insertedId =
      some ⟨s.nextId, f⟩ := by
  simp only [Book.findById, Book.create, List.find?_append, find?_fresh_none s hWF,
    Option.none_or, List.find?_cons]
  simp

lemma any_id_false (s : Store) (i : Nat) (h : Book.findById s i = none) :
    s.books.any (fun b => b._id = i) = false := by
  rw [Book.findById, List.find?_eq_none] at h
  rw [List.any_eq_false]
  intro b hb
  exact h b hb

lemma any_id_true (s : Store) (i : Nat) (b : StoredBook) (h : Book.findById s i = some b) :
    s.books.any (fun x => x._id = i) = true := by
  rw [Book.findById] at h
  have hp := List.find?_some h
  have hm := List.mem_of_find?_eq_some h
  rw [List.any_eq_true]
  exact ⟨b, hm, hp⟩

lemma find?_map_merge (l : List StoredBook) (i : Nat) (body : BookFields) :
    (l.map (fun b => if b._id = i then ⟨i, mergeFields b.fields body⟩ else b)).find?
        (fun b => b._id = i) =
      (l.find? (fun b => b._id = i)).map
        (fun b => if b._id = i then (⟨i, mergeFields b.fields body⟩ : StoredBook) else b) := by
  induction l with
  | nil => rfl
  | cons h t ih =>
    by_cases hid : h._id = i
    · simp [List.find?_cons, hid]
    · simp [List.find?_cons, hid, ih]

lemma findById_update_matched (s : Store) (i : Nat) (b : StoredBook) (body : BookFields)
    (h : Book.findById s i = some b) :
    Book.findById (Book.update s i body).2 i = some ⟨i, mergeFields b.fields body⟩ := by
  have hb : b._id = i := by simpa using List.find?_some h
  rw [Book.update, if_pos (any_id_true s i b h)]
  show (s.books.map _).find? _ = _
  rw [find?_map_merge]
  rw [Book.findById] at h
  rw [h]
  simp [hb]

lemma findById_delete (s : Store) (i : Nat) :
    Book.findById (Book.delete s i).2 i = none := by
  rw [Book.delete]
  show (s.books.filter _).find? _ = none
  rw [List.find?_eq_none]
  intro b hb
  have := (List.mem_filter.mp hb).2
  simpa using this

lemma delete_unmatched_store (s : Store) (i : Nat) (h : Book.findById s i = none) :
    (Book.delete s i).2 = s := by
  rw [Book.findById, List.find?_eq_none] at h
  rw [Book.delete]
  have : s.books.filter (fun b => b._id ≠ i) = s.books := by
    rw [List.filter_eq_self]
    intro b hb
    simpa using fun he => (h b hb) (by simpa using he)
  rw [this]

/-- C1: for every payload with a truthy (present, non-empty) title,
`create` followed by `findById` on the returned identity yields a record
whose fields equal the input payload verbatim, and the POST `/books`
handler responds 201 with that re-read record as `data`. -/
theorem create_findById_roundtrip (u : String) (s : Store) (body : BookFields)
    (hWF : Store.WF s) (hT : titleFalsy body.title = false) :
    Book.findById (Book.create s body).2 (Book.create s body).1.insertedId =
      some ⟨s.nextId, body⟩
    ∧ (⟨s.nextId, body⟩ : StoredBook).fields = body
    ∧ processRequest ⟨some u, none, none⟩ s (Request.create body) =
        Outcome.ok ⟨201, true, none, some (RData.book ⟨s.nextId, body⟩),
          some "Book created successfully", none, none⟩ (Book.create s body).2 := by
  refine ⟨findById_create s hWF body, rfl, ?_⟩
  simp only [processRequest, afterAuth, dispatch, postBook, hT, Bool.false_eq_true,
    if_false, findById_create s hWF body, dataOfOpt]

/-- C1 witness at a concrete payload and the empty store. -/
theorem create_findById_roundtrip_witness :
    Store.WF store0 ∧ titleFalsy (some "Dune") = false ∧
    (Book.findById (Book.create store0 ⟨some "Dune", some "a1", none, none⟩).2
        (Book.create store0 ⟨some "Dune", some "a1", none, none⟩).1.insertedId =
      some ⟨store0.nextId, ⟨some "Dune", some "a1", none, none⟩⟩
    ∧ (⟨store0.nextId, ⟨some "Dune", some "a1", none, none⟩⟩ : StoredBook).fields =
        ⟨some "Dune", some "a1", none, none⟩
    ∧ processRequest ⟨some "u", none, none⟩ store0
        (Request.create ⟨some "Dune", some "a1", none, none⟩) =
      Outcome.ok ⟨201, true, none,
          some (RData.book ⟨store0.nextId, ⟨some "Dune", some "a1", none, none⟩⟩),
          some "Book created successfully", none, none⟩
        (Book.create store0 ⟨some "Dune", some "a1", none, none⟩).2) :=
  ⟨by intro b hb; simp [store0] at hb, by decide,
   create_findById_roundtrip "u" store0 ⟨some "Dune", some "a1", none, none⟩
     (by intro b hb; simp [store0] at hb) (by decide)⟩

/-- C2: with a falsy (absent or empty) title the POST `/books` handler
responds 400 `Book title is required` and leaves the store unchanged
even when every model operation would throw (so `create` is never
invoked); with a truthy title the outcome is never a 400, whatever the
connectivity and model behaviour. -/
theorem post_falsy_title_400 (u : String) (c me : Option String) (s : Store)
    (body : BookFields) :
    (titleFalsy body.title = true →
      processRequest ⟨some u, none, me⟩ s (Request.create body) =
        Outcome.ok (errResponse 400 "Book title is required") s)
    ∧ (titleFalsy body.title = false →
      ∀ r s', processRequest ⟨some u, c, me⟩ s (Request.create body) = Outcome.ok r s' →
        r.status ≠ 400) := by
  constructor
  · intro hT
    simp [processRequest, afterAuth, dispatch, postBook, hT]
  · intro hT r s' h
    cases c with
    | some msg =>
      simp only [processRequest, afterAuth, Outcome.ok.injEq] at h
      rw [← h.1]
      simp
    | none =>
      cases me with
      | some msg =>
        simp only [processRequest, afterAuth, dispatch, postBook, hT, Bool.false_eq_true,
          if_false, Outcome.ok.injEq] at h
        rw [← h.1]
        simp [errResponse]
      | none =>
        simp only [processRequest, afterAuth, dispatch, postBook, hT, Bool.false_eq_true,
          if_false, Outcome.ok.injEq] at h
        rw [← h.1]
        simp

/-- C2 witness: the empty body is rejected with 400 at a concrete store,
and a concrete truthy-title request never yields a 400. -/
theorem post_falsy_title_400_witness :
    titleFalsy (none : Option String) = true ∧
    processRequest ⟨some "u", none, none⟩ store0 (Request.create ⟨none, none, none, none⟩) =
      Outcome.ok (errResponse 400 "Book title is required") store0 :=
  ⟨by decide,
   (post_falsy_title_400 "u" none none store0 ⟨none, none, none, none⟩).1 (by decide)⟩

/-- C3 counterexample: the POST handler accepts a payload without any
`authorId` and stores a record whose `authorId` is absent, and the PUT
handler accepts an empty-string `title` and stores a record whose title
is falsy — so neither half of the claimed invariant is enforced. -/
theorem stored_invariant_counterexample :
    (processRequest ⟨some "u", none, none⟩ store0
        (Request.create ⟨some "Dune", none, none, none⟩) =
      Outcome.ok ⟨201, true, none, some (RData.book ⟨0, ⟨some "Dune", none, none, none⟩⟩),
          some "Book created successfully", none, none⟩
        ⟨1, [⟨0, ⟨some "Dune", none, none, none⟩⟩]⟩)
    ∧ (⟨0, ⟨some "Dune", none, none, none⟩⟩ : StoredBook).fields.authorId = none
    ∧ (processRequest ⟨some "u", none, none⟩ ⟨1, [⟨0, ⟨some "Dune", some "a1", none, none⟩⟩]⟩
        (Request.update 0 ⟨some "", none, none, none⟩) =
      Outcome.ok ⟨200, true, none, some (RData.book ⟨0, ⟨some "", some "a1", none, none⟩⟩),
          some "Book updated successfully", none, none⟩
        ⟨1, [⟨0, ⟨some "", some "a1", none, none⟩⟩]⟩)
    ∧ titleFalsy (⟨0, ⟨some "", some "a1", none, none⟩⟩ : StoredBook).fields.title = true := by
  refine ⟨?_, rfl, ?_, rfl⟩ <;> decide

/-- C3 amended: every record stored through the create operation has a
truthy (non-empty) title, and the POST handler preserves this invariant
on the store; presence of `authorId` is not enforced, and the PUT
handler does not preserve the title invariant. -/
theorem create_preserves_title_invariant (env : Env) (s : Store) (body : BookFields)
    (r : Response) (s' : Store) (hInv : Store.TitleInv s)
    (h : processRequest env s (Request.create body) = Outcome.ok r s') :
    Store.TitleInv s' := by
  cases hp : env.principal with
  | none => rw [processRequest, hp] at h; exact absurd h (by simp)
  | some u =>
    rw [processRequest, hp] at h
    cases hc : env.conn with
    | some msg =>
      rw [afterAuth, hc] at h
      obtain ⟨-, rfl⟩ := Outcome.ok.inj h
      exact hInv
    | none =>
      rw [afterAuth, hc] at h
      simp only [dispatch, postBook] at h
      by_cases hT : titleFalsy body.title
      · rw [if_pos hT] at h
        obtain ⟨-, rfl⟩ := Outcome.ok.inj h
        exact hInv
      · rw [if_neg hT] at h
        cases hm : env.modelError with
        | some msg =>
          rw [hm] at h
          obtain ⟨-, rfl⟩ := Outcome.ok.inj h
          exact hInv
        | none =>
          rw [hm] at h
          obtain ⟨-, rfl⟩ := Outcome.ok.inj h
          intro b hb
          rcases List.mem_append.mp hb with hb | hb
          · exact hInv b hb
          · rcases List.mem_singleton.mp hb with rfl
            exact Bool.eq_false_iff.mpr hT

/-- C3 amended witness: the invariant holds after a concrete create on
the empty store. -/
theorem create_preserves_title_invariant_witness :
    Store.TitleInv ⟨1, [⟨0, ⟨some "Dune", some "a1", none, none⟩⟩]⟩ :=
  create_preserves_title_invariant ⟨some "u", none, none⟩ store0
    ⟨some "Dune", some "a1", none, none⟩
    ⟨201, true, none, some (RData.book ⟨0, ⟨some "Dune", some "a1", none, none⟩⟩),
      some "Book created successfully", none, none⟩
    ⟨1, [⟨0, ⟨some "Dune", some "a1", none, none⟩⟩]⟩
    (by intro b hb; simp [store0] at hb) (by decide)

/-- C4: for every one of the five operations, a request without a
session principal is short-circuited to the unauthorized outcome with
the store untouched (no connectivity check, no model call); a request
with a present principal is passed through unchanged to the
connectivity-check-plus-handler pipeline. -/
theorem auth_guard_gates_all_operations (env : Env) (s : Store) (req : Request) :
    (env.principal = none → processRequest env s req = Outcome.unauthorized s)
    ∧ (∀ u, env.principal = some u → processRequest env s req = afterAuth env s req) := by
  constructor
  · intro hp; rw [processRequest, hp]
  · intro u hp; rw [processRequest, hp]

/-- C4 witness: a concrete unauthenticated list request is rejected with
the store untouched, and a concrete authenticated one passes through. -/
theorem auth_guard_gates_all_operations_witness :
    (processRequest ⟨none, none, none⟩ store0 Request.list = Outcome.unauthorized store0)
    ∧ processRequest ⟨some "u", none, none⟩ store0 Request.list =
        afterAuth ⟨some "u", none, none⟩ store0 Request.list :=
  ⟨(auth_guard_gates_all_operations ⟨none, none, none⟩ store0 Request.list).1 rfl,
   (auth_guard_gates_all_operations ⟨some "u", none, none⟩ store0 Request.list).2 "u" rfl⟩

/-- C5: for every one of the five operations, a failing connectivity
check yields 500 `Database connection failed` carrying the raw error,
with the store untouched and the model operation never invoked (the
injected model behaviour is irrelevant); and with the connection healthy,
a throwing model operation yields 500 with `success:false` and the raw
error message, the store untouched. -/
theorem failures_reported_500 (u msg : String) (me : Option String) (s : Store)
    (req : Request)
    (hnc : ∀ body, req = Request.create body → titleFalsy body.title = false) :
    processRequest ⟨some u, some msg, me⟩ s req =
      Outcome.ok ⟨500, false, none, none, some "Database connection failed", none, some msg⟩ s
    ∧ ∃ r, processRequest ⟨some u, none, some msg⟩ s req = Outcome.ok r s
        ∧ r.status = 500 ∧ r.success = false ∧ r.message = some msg := by
  refine ⟨rfl, ?_⟩
  cases req with
  | list =>
    exact ⟨⟨500, false, none, none, some msg, some "Failed to fetch books", none⟩,
      rfl, rfl, rfl, rfl⟩
  | getById i => exact ⟨errResponse 500 msg, rfl, rfl, rfl, rfl⟩
  | create body =>
    refine ⟨errResponse 500 msg, ?_, rfl, rfl, rfl⟩
    have hT := hnc body rfl
    simp [processRequest, afterAuth, dispatch, postBook, hT]
  | update i body => exact ⟨errResponse 500 msg, rfl, rfl, rfl, rfl⟩
  | delete i => exact ⟨errResponse 500 msg, rfl, rfl, rfl, rfl⟩

/-- C5 witness at a concrete failing environment and a get-by-id
request. -/
theorem failures_reported_500_witness :
    processRequest ⟨some "u", some "boom", none⟩ store0 (Request.getById 0) =
      Outcome.ok ⟨500, false, none, none, some "Database connection failed", none, some "boom"⟩
        store0
    ∧ ∃ r, processRequest ⟨some "u", none, some "boom"⟩ store0 (Request.getById 0) =
        Outcome.ok r store0
        ∧ r.status = 500 ∧ r.success = false ∧ r.message = some "boom" :=
  failures_reported_500 "u" "boom" none store0 (Request.getById 0)
    (fun _ h => Request.noConfusion h)

/-- C6: over every store, the list handler responds 200 with `data` the
ordered-by-insertion sequence of all stored records and `count` its
length; create appends at the end, so insertion order is preserved. -/
theorem list_returns_all_books (u : String) (s : Store) :
    processRequest ⟨some u, none, none⟩ s Request.list =
      Outcome.ok ⟨200, true, some (Book.findAll s).length,
        some (RData.books (Book.findAll s)), none, none, none⟩ s
    ∧ ∀ body, Book.findAll (Book.create s body).2 =
        Book.findAll s ++ [⟨s.nextId, body⟩] := by
  exact ⟨rfl, fun body => rfl⟩

/-- C7: the get-by-id handler responds 404 `Book not found` exactly when
no stored record matches the identity, and responds 200 with the
matching record as `data` when one exists. -/
theorem getById_404_iff_absent (u : String) (s : Store) (i : Nat) :
    (processRequest ⟨some u, none, none⟩ s (Request.getById i) =
        Outcome.ok (errResponse 404 "Book not found") s
      ↔ Book.findById s i = none)
    ∧ ∀ b, Book.findById s i = some b →
      processRequest ⟨some u, none, none⟩ s (Request.getById i) =
        Outcome.ok ⟨200, true, none, some (RData.book b), none, none, none⟩ s := by
  constructor
  · constructor
    · intro h
      cases hf : Book.findById s i with
      | none => rfl
      | some b =>
        simp only [processRequest, afterAuth, dispatch, getBook, hf] at h
        have := (Outcome.ok.inj h).1
        exact absurd (congrArg Response.status this) (by simp [errResponse])
    · intro hf
      simp [processRequest, afterAuth, dispatch, getBook, hf]
  · intro b hf
    simp [processRequest, afterAuth, dispatch, getBook, hf]

/-- C7 witness: concrete instantiation on a one-record store, both the
absent and the present identity. -/
theorem getById_404_iff_absent_witness :
    (processRequest ⟨some "u", none, none⟩ ⟨1, [⟨0, ⟨some "Dune", some "a1", none, none⟩⟩]⟩
          (Request.getById 7) =
        Outcome.ok (errResponse 404 "Book not found")
          ⟨1, [⟨0, ⟨some "Dune", some "a1", none, none⟩⟩]⟩
      ↔ Book.findById ⟨1, [⟨0, ⟨some "Dune", some "a1", none, none⟩⟩]⟩ 7 = none)
    ∧ ∀ b, Book.findById ⟨1, [⟨0, ⟨some "Dune", some "a1", none, none⟩⟩]⟩ 7 = some b →
      processRequest ⟨some "u", none, none⟩ ⟨1, [⟨0, ⟨some "Dune", some "a1", none, none⟩⟩]⟩
          (Request.getById 7) =
        Outcome.ok ⟨200, true, none, some (RData.book b), none, none, none⟩
          ⟨1, [⟨0, ⟨some "Dune", some "a1", none, none⟩⟩]⟩ :=
  getById_404_iff_absent "u" ⟨1, [⟨0, ⟨some "Dune", some "a1", none, none⟩⟩]⟩ 7

lemma any_id_create (s : Store) (body : BookFields) :
    (Book.create s body).2.books.any
      (fun b => b._id = (Book.create s body).1.insertedId) = true := by
  rw [List.any_eq_true]
  exact ⟨⟨s.nextId, body⟩, by simp [Book.create], by simp [Book.create]⟩

/-- C8: for an identity matching no stored record, the update operation
reports zero records matched and leaves the store unchanged, and the PUT
handler responds 404 `Book not found`; for a matching identity the
handler responds 200 with the updated (merged) record as `data`. -/
theorem update_unmatched_404 (u : String) (s : Store) (i : Nat) (body : BookFields) :
    (Book.findById s i = none →
      (Book.update s i body).1.matchedCount = 0
      ∧ (Book.update s i body).2 = s
      ∧ processRequest ⟨some u, none, none⟩ s (Request.update i body) =
          Outcome.ok (errResponse 404 "Book not found") s)
    ∧ ∀ b, Book.findById s i = some b →
      processRequest ⟨some u, none, none⟩ s (Request.update i body) =
        Outcome.ok ⟨200, true, none, some (RData.book ⟨i, mergeFields b.fields body⟩),
          some "Book updated successfully", none, none⟩ (Book.update s i body).2 := by
  constructor
  · intro hf
    have hA := any_id_false s i hf
    refine ⟨?_, ?_, ?_⟩
    · rw [Book.update, if_neg (by simp [hA])]
    · rw [Book.update, if_neg (by simp [hA])]
    · simp [processRequest, afterAuth, dispatch, putBook, Book.update, hA]
  · intro b hf
    have hA := any_id_true s i b hf
    have hu := findById_update_matched s i b body hf
    have hm1 : (Book.update s i body).1 = ⟨1⟩ := by simp [Book.update, hA]
    simp [processRequest, afterAuth, dispatch, putBook, hm1, hu, dataOfOpt]

/-- C8 witness: concrete instantiation on a one-record store with an
unmatched identity. -/
theorem update_unmatched_404_witness :
    Book.findById ⟨1, [⟨0, ⟨some "Dune", some "a1", none, none⟩⟩]⟩ 7 = none
    ∧ ((Book.update ⟨1, [⟨0, ⟨some "Dune", some "a1", none, none⟩⟩]⟩ 7
          ⟨some "New", none, none, none⟩).1.matchedCount = 0
      ∧ (Book.update ⟨1, [⟨0, ⟨some "Dune", some "a1", none, none⟩⟩]⟩ 7
          ⟨some "New", none, none, none⟩).2 = ⟨1, [⟨0, ⟨some "Dune", some "a1", none, none⟩⟩]⟩
      ∧ processRequest ⟨some "u", none, none⟩ ⟨1, [⟨0, ⟨some "Dune", some "a1", none, none⟩⟩]⟩
          (Request.update 7 ⟨some "New", none, none, none⟩) =
        Outcome.ok (errResponse 404 "Book not found")
          ⟨1, [⟨0, ⟨some "Dune", some "a1", none, none⟩⟩]⟩) :=
  ⟨by decide,
   (update_unmatched_404 "u" ⟨1, [⟨0, ⟨some "Dune", some "a1", none, none⟩⟩]⟩ 7
     ⟨some "New", none, none, none⟩).1 (by decide)⟩

/-- C9: deleting the identity returned by a create responds 200
`Book deleted successfully`, after which `findById` and the get-by-id
handler on that identity yield not found (404); deleting an unmatched
identity responds 404 with the store unchanged. -/
theorem delete_then_findById_none (u : String) (s : Store) (body : BookFields) :
    processRequest ⟨some u, none, none⟩ (Book.create s body).2
        (Request.delete (Book.create s body).1.insertedId) =
      Outcome.ok ⟨200, true, none, none, some "Book deleted successfully", none, none⟩
        (Book.delete (Book.create s body).2 (Book.create s body).1.insertedId).2
    ∧ Book.findById (Book.delete (Book.create s body).2 (Book.create s body).1.insertedId).2
        (Book.create s body).1.insertedId = none
    ∧ processRequest ⟨some u, none, none⟩
        (Book.delete (Book.create s body).2 (Book.create s body).1.insertedId).2
        (Request.getById (Book.create s body).1.insertedId) =
      Outcome.ok (errResponse 404 "Book not found")
        (Book.delete (Book.create s body).2 (Book.create s body).1.insertedId).2
    ∧ ∀ j, Book.findById s j = none →
      processRequest ⟨some u, none, none⟩ s (Request.delete j) =
        Outcome.ok (errResponse 404 "Book not found") s := by
  have hA := any_id_create s body
  have hd1 : (Book.delete (Book.create s body).2 (Book.create s body).1.insertedId).1 =
      ⟨1⟩ := by
    rw [Book.delete]
    simp [hA]
  refine ⟨?_, findById_delete _ _, ?_, ?_⟩
  · simp [processRequest, afterAuth, dispatch, deleteBook, hd1]
  · simp [processRequest, afterAuth, dispatch, getBook, findById_delete]
  · intro j hf
    have hA0 := any_id_false s j hf
    have hd0 : (Book.delete s j).1 = ⟨0⟩ := by
      rw [Book.delete]
      simp [hA0]
    have hst := delete_unmatched_store s j hf
    simp [processRequest, afterAuth, dispatch, deleteBook, hd0, hst]

/-- C9 witness at a concrete payload and the empty store. -/
theorem delete_then_findById_none_witness :
    processRequest ⟨some "u", none, none⟩
        (Book.create store0 ⟨some "Dune", some "a1", none, none⟩).2
        (Request.delete (Book.create store0 ⟨some "Dune", some "a1", none, none⟩).1.insertedId) =
      Outcome.ok ⟨200, true, none, none, some "Book deleted successfully", none, none⟩
        (Book.delete (Book.create store0 ⟨some "Dune", some "a1", none, none⟩).2
          (Book.create store0 ⟨some "Dune", some "a1", none, none⟩).1.insertedId).2
    ∧ Book.findById
        (Book.delete (Book.create store0 ⟨some "Dune", some "a1", none, none⟩).2
          (Book.create store0 ⟨some "Dune", some "a1", none, none⟩).1.insertedId).2
        (Book.create store0 ⟨some "Dune", some "a1", none, none⟩).1.insertedId = none
    ∧ processRequest ⟨some "u", none, none⟩
        (Book.delete (Book.create store0 ⟨some "Dune", some "a1", none, none⟩).2
          (Book.create store0 ⟨some "Dune", some "a1", none, none⟩).1.insertedId).2
        (Request.getById (Book.create store0 ⟨some "Dune", some "a1", none, none⟩).1.insertedId) =
      Outcome.ok (errResponse 404 "Book not found")
        (Book.delete (Book.create store0 ⟨some "Dune", some "a1", none, none⟩).2
          (Book.create store0 ⟨some "Dune", some "a1", none, none⟩).1.insertedId).2
    ∧ ∀ j, Book.findById store0 j = none →
      processRequest ⟨some "u", none, none⟩ store0 (Request.delete j) =
        Outcome.ok (errResponse 404 "Book not found") store0 :=
  delete_then_findById_none "u" store0 ⟨some "Dune", some "a1", none, none⟩

/-- C10: the PUT handler performs no body validation: for every body and
every environment with a principal, the status is 200, 404 or 500 and
never 400, and a 200 carries as `data` the record re-read from the
resulting store (not the request body echoed back). -/
theorem put_no_body_validation (u : String) (c me : Option String) (s : Store) (i : Nat)
    (body : BookFields) :
    ∃ r s', processRequest ⟨some u, c, me⟩ s (Request.update i body) = Outcome.ok r s'
      ∧ (r.status = 200 ∨ r.status = 404 ∨ r.status = 500)
      ∧ r.status ≠ 400
      ∧ (r.status = 200 →
          r.data = some (dataOfOpt (Book.findById s' i))
          ∧ r.message = some "Book updated successfully") := by
  cases c with
  | some msg =>
    refine ⟨⟨500, false, none, none, some "Database connection failed", none, some msg⟩, s,
      rfl, Or.inr (Or.inr rfl), by simp, by simp⟩
  | none =>
    cases me with
    | some msg =>
      refine ⟨errResponse 500 msg, s, rfl, Or.inr (Or.inr rfl), by simp [errResponse],
        by simp [errResponse]⟩
    | none =>
      cases hA : s.books.any (fun b => b._id = i) with
      | false =>
        have hm0 : (Book.update s i body).1 = ⟨0⟩ := by simp [Book.update, hA]
        have hst : (Book.update s i body).2 = s := by simp [Book.update, hA]
        refine ⟨errResponse 404 "Book not found", s, ?_, Or.inr (Or.inl rfl),
          by simp [errResponse], by simp [errResponse]⟩
        simp [processRequest, afterAuth, dispatch, putBook, hm0, hst]
      | true =>
        have hm1 : (Book.update s i body).1 = ⟨1⟩ := by simp [Book.update, hA]
        refine ⟨⟨200, true, none, some (dataOfOpt (Book.findById (Book.update s i body).2 i)),
          some "Book updated successfully", none, none⟩, (Book.update s i body).2,
          ?_, Or.inl rfl, by simp, fun _ => ⟨rfl, rfl⟩⟩
        simp [processRequest, afterAuth, dispatch, putBook, hm1]

/-- C10 witness: concrete instantiation at a matched identity and a body
with an absent title. -/
theorem put_no_body_validation_witness :
    ∃ r s', processRequest ⟨some "u", none, none⟩
        ⟨1, [⟨0, ⟨some "Dune", some "a1", none, none⟩⟩]⟩
        (Request.update 0 ⟨none, none, none, some 99⟩) = Outcome.ok r s'
      ∧ (r.status = 200 ∨ r.status = 404 ∨ r.status = 500)
      ∧ r.status ≠ 400
      ∧ (r.status = 200 →
          r.data = some (dataOfOpt (Book.findById s' 0))
          ∧ r.message = some "Book updated successfully") :=
  put_no_body_validation "u" none none ⟨1, [⟨0, ⟨some "Dune", some "a1", none, none⟩⟩]⟩ 0
    ⟨none, none, none, some 99⟩
